import Mathlib

/-!
Shallow embedding of `.github/scripts/review.py`, a three-stage CI script:
compute a pull-request diff with git, request a review from a completion
service, and publish the review as an issue comment over HTTP.  External
effects (subprocess exits, the completion call, the HTTP POST) are modelled
by a `World` record of outcomes; each stage returns its Python return value
together with the list of observable events (printed lines, subprocess
invocations, network calls) it performed, plus an uncaught Python exception
when one escapes.
-/

namespace Review

/-- Truthiness of an `os.environ.get` result: `None` and the empty string are
falsy, every other string is truthy (Python `bool(x)` for `x : str | None`). -/
def truthy : Option String → Bool
  | none => false
  | some s => !s.isEmpty

/-- Python string formatting of a `str | None` value inside an f-string. -/
def pyStr : Option String → String
  | none => "None"
  | some s => s

/-- The five environment variables read at module scope (lines 8-12). -/
structure Env where
  OPENAI_API_KEY : Option String
  GITHUB_TOKEN : Option String
  GITHUB_REPOSITORY : Option String
  PR_NUMBER : Option String
  BASE_REF : Option String
deriving DecidableEq, Repr

/-- Outcome of one `subprocess.run(..., check=True, capture_output=True,
text=True)` call: normal completion with captured stdout/stderr, a
`CalledProcessError` raised for a non-zero exit (carrying stderr), or any
other exception raised by the call. -/
inductive ProcOutcome
  | ok (stdout stderr : String)
  | calledProcessError (stderr : String)
  | otherError (msg : String)
deriving DecidableEq, Repr

/-- Outcome of `client.chat.completions.create(...)` followed by
`response.choices[0].message.content`: success yields the content field,
which Python types as `str | None`; any exception during the call or the
field access carries its message. -/
inductive OpenAIOutcome
  | success (content : Option String)
  | exn (msg : String)
deriving DecidableEq, Repr

/-- Outcome of `requests.post(...)`: a response with a status code and body
text, or a transport-level exception. -/
inductive HttpResult
  | response (status : Nat) (text : String)
  | transportErr (msg : String)
deriving DecidableEq, Repr

/-- The external outcomes of one run: the fetch subprocess, the diff
subprocess, the completion call, and the HTTP POST. -/
structure World where
  fetch : ProcOutcome
  diff : ProcOutcome
  openai : OpenAIOutcome
  http : HttpResult
deriving DecidableEq, Repr

/-- Observable events of a run: a printed line, a subprocess invocation with
its argument list, a completion-service request (model, system message, user
message), an HTTP POST (url and the JSON `body` field), and the top level
invoking the review stage / the publish stage with a given argument. -/
inductive Event
  | log (msg : String)
  | subprocessRun (args : List String)
  | openaiCall (model system user : String)
  | httpPost (url bodyField : String)
  | callReview (diff : Option String)
  | callPublish (reviewText : Option String)
deriving DecidableEq, Repr

/-- Argument list of the first subprocess call (line 26):
a list of the words git, fetch, origin, and the base ref. -/
def fetch_command (BASE_REF : Option String) : List String :=
  ["git", "fetch", "origin", pyStr BASE_REF]

/-- Argument list of the second subprocess call (line 30):
a list of the words git, diff, and the formatted range origin/BASE_REF...HEAD. -/
def diff_command (BASE_REF : Option String) : List String :=
  ["git", "diff", "origin/" ++ pyStr BASE_REF ++ "...HEAD"]

/-- `get_pr_diff` (lines 19-45): fetch the base branch, diff against HEAD,
return the diff text, or `None` on empty output or any caught error. -/
def get_pr_diff (BASE_REF : Option String) (w : World) :
    Option String × List Event :=
  let ev0 := [Event.log ("Fetching base branch: " ++ pyStr BASE_REF),
              Event.subprocessRun (fetch_command BASE_REF)]
  match w.fetch with
  | ProcOutcome.calledProcessError stderr =>
      (none, ev0 ++ [Event.log ("Error getting git diff: " ++ stderr)])
  | ProcOutcome.otherError msg =>
      (none, ev0 ++ [Event.log ("An unexpected error occurred in get_pr_diff: " ++ msg)])
  | ProcOutcome.ok _ _ =>
    let ev1 := ev0 ++
      [Event.log ("Running diff command: " ++ String.intercalate " " (diff_command BASE_REF)),
       Event.subprocessRun (diff_command BASE_REF)]
    match w.diff with
    | ProcOutcome.calledProcessError stderr =>
        (none, ev1 ++ [Event.log ("Error getting git diff: " ++ stderr)])
    | ProcOutcome.otherError msg =>
        (none, ev1 ++ [Event.log ("An unexpected error occurred in get_pr_diff: " ++ msg)])
    | ProcOutcome.ok stdout _ =>
      if stdout.isEmpty then
        (none, ev1 ++ [Event.log "No diff found. Exiting."])
      else
        (some stdout,
         ev1 ++ [Event.log ("Diff found (first 500 chars): " ++ stdout.take 500 ++ "...")])

/-- The system prompt literal (lines 55-64). -/
def system_prompt : String :=
  "\n    You are an expert code review bot. Your task is to review a pull request based on the provided code diff.\n\n    Please provide your review in the following format:\n    1.  **Summary:** A brief, one-sentence summary of the changes.\n    2.  **Review:** A bulleted list of specific feedback. Focus on potential bugs, style issues, security vulnerabilities, or performance improvements.\n    3.  **Overall:** A final \"Looks good to me!\" or \"Needs changes.\"\n\n    Keep your review concise and constructive. If there are no issues, just say \"Looks good to me!\".\n    "

/-- The user prompt (line 66). -/
def user_prompt (diff : String) : String :=
  "Please review the following code diff:\n\n```diff\n" ++ diff ++ "\n```"

/-- `get_ai_review` (lines 47-81): falsy diff short-circuits to the
placeholder; otherwise one completion request whose content is returned
as-is, with any exception converted to an inline error string. -/
def get_ai_review (diff : Option String) (w : World) :
    Option String × List Event :=
  if !truthy diff then
    (some "No code changes detected.", [])
  else
    let ev := [Event.log "Sending prompt to OpenAI...",
               Event.openaiCall "gpt-4o-mini" system_prompt (user_prompt (pyStr diff))]
    match w.openai with
    | OpenAIOutcome.success content =>
        (content, ev ++ [Event.log "OpenAI response received."])
    | OpenAIOutcome.exn msg =>
        (some ("Error: Unable to get AI review. " ++ msg),
         ev ++ [Event.log ("Error calling OpenAI: " ++ msg)])

/-- The comments endpoint URL (line 87). -/
def api_url (GITHUB_REPOSITORY PR_NUMBER : Option String) : String :=
  "https://api.github.com/repos/" ++ pyStr GITHUB_REPOSITORY ++ "/issues/" ++
    pyStr PR_NUMBER ++ "/comments"

/-- The markdown header prepended to the review text (line 96). -/
def comment_header : String := "### 🤖 AI Code Review\n\n"

/-- The message of the `TypeError` Python raises for `str + None` (line 96
when `review_text` is `None`). -/
def typeErrorMsg : String :=
  "TypeError: can only concatenate str (not \"NoneType\") to str"

/-- `post_github_comment` (lines 83-107): builds the JSON body before the
`try` block, so a `None` review text raises an uncaught `TypeError`; inside
the `try`, issues one POST and logs success, an HTTP error status, or any
other exception.  Returns the events performed and the escaping exception,
if any. -/
def post_github_comment (GITHUB_REPOSITORY PR_NUMBER : Option String)
    (review_text : Option String) (w : World) : List Event × Option String :=
  let url := api_url GITHUB_REPOSITORY PR_NUMBER
  match review_text with
  | none => ([], some typeErrorMsg)
  | some rt =>
    let ev := [Event.log ("Posting comment to " ++ url ++ "..."),
               Event.httpPost url (comment_header ++ rt)]
    match w.http with
    | HttpResult.transportErr msg =>
        (ev ++ [Event.log ("An unexpected error occurred in post_github_comment: " ++ msg)],
         none)
    | HttpResult.response status text =>
      if 400 ≤ status ∧ status < 600 then
        (ev ++ [Event.log ("Error posting comment: " ++ toString status ++ " " ++ text)],
         none)
      else
        (ev ++ [Event.log ("Successfully posted comment to PR #" ++ pyStr PR_NUMBER ++ ".")],
         none)

/-- Python `all([OPENAI_API_KEY, GITHUB_TOKEN, GITHUB_REPOSITORY, PR_NUMBER,
BASE_REF])` (line 112). -/
def allSet (e : Env) : Bool :=
  truthy e.OPENAI_API_KEY && truthy e.GITHUB_TOKEN && truthy e.GITHUB_REPOSITORY &&
    truthy e.PR_NUMBER && truthy e.BASE_REF

/-- The `__main__` block (lines 111-127): guard on the five variables, then
diff → review → publish, each stage gated on a truthy diff.  Returns the
events of the run and the exception escaping the top level, if any. -/
def main_run (env : Env) (w : World) : List Event × Option String :=
  if allSet env then
    let ev0 := [Event.log "--- Starting AI Code Review ---",
                Event.log "Fetching PR diff..."]
    let pd := get_pr_diff env.BASE_REF w
    if truthy pd.1 then
      let ev2 := [Event.log "Diff fetched. Getting AI review...",
                  Event.callReview pd.1]
      let ar := get_ai_review pd.1 w
      let ev4 := [Event.log "AI review received. Posting to GitHub...",
                  Event.callPublish ar.1]
      let pc := post_github_comment env.GITHUB_REPOSITORY env.PR_NUMBER ar.1 w
      match pc.2 with
      | some e => (ev0 ++ pd.2 ++ ev2 ++ ar.2 ++ ev4 ++ pc.1, some e)
      | none =>
          (ev0 ++ pd.2 ++ ev2 ++ ar.2 ++ ev4 ++ pc.1 ++
             [Event.log "--- AI Code Review Finished ---"], none)
    else
      (ev0 ++ pd.2 ++ [Event.log "--- AI Code Review Finished ---"], none)
  else
    ([Event.log "Error: Missing one or more required environment variables."], none)

/-- The subprocess invocations recorded in a trace, in order. -/
def subprocCalls (t : List Event) : List (List String) :=
  t.filterMap fun e =>
    match e with
    | Event.subprocessRun a => some a
    | _ => none

/-- The OpenAIError message the openai v1 client constructor raises when no
API key is available. -/
def openAIErrorMsg : String :=
  "OpenAIError: The api_key client option must be set either by passing api_key to the client or by setting the OPENAI_API_KEY environment variable"

/-- Module-scope client construction, line 15: the script passes the result
of reading the OPENAI_API_KEY environment variable as the api_key argument.
Under the openai v1 library the constructor falls back to that same
environment variable when its argument is None and raises OpenAIError when
both are absent, so here it raises exactly when the variable is absent.
Returns the escaping exception, if any. -/
def client_init (OPENAI_API_KEY : Option String) : Option String :=
  match OPENAI_API_KEY with
  | none => some openAIErrorMsg
  | some _ => none

/-- The whole script execution: module scope (lines 1-15, the environment
reads and the client construction, which print nothing) followed by the
guarded block of lines 111-127. A module-scope exception escapes with an
empty trace; otherwise the run is `main_run`. -/
def program_run (env : Env) (w : World) : List Event × Option String :=
  match client_init env.OPENAI_API_KEY with
  | some e => ([], some e)
  | none => main_run env w

/-- A fully populated environment, used as a concrete run configuration. -/
def envAll : Env :=
  ⟨some "sk-key", some "ghp-token", some "octo/repo", some "7", some "main"⟩

/-- An environment with every variable absent. -/
def envNone : Env := ⟨none, none, none, none, none⟩

/-- An environment missing only the issue-tracker token. -/
def envNoToken : Env :=
  ⟨some "sk-key", none, some "octo/repo", some "7", some "main"⟩

/-- A run where every external call succeeds and the diff is non-empty. -/
def wOk : World :=
  ⟨ProcOutcome.ok "" "", ProcOutcome.ok "+line" "",
   OpenAIOutcome.success (some "Looks good to me!"), HttpResult.response 201 "{}"⟩

/-- A run where the fetch subprocess exits non-zero. -/
def wFetchFail : World :=
  ⟨ProcOutcome.calledProcessError "fatal: could not fetch", ProcOutcome.ok "+x" "",
   OpenAIOutcome.success (some "r"), HttpResult.response 201 "{}"⟩

/-- A run where the completion call raises. -/
def wOpenAIFail : World :=
  ⟨ProcOutcome.ok "" "", ProcOutcome.ok "+line" "",
   OpenAIOutcome.exn "connection reset", HttpResult.response 201 "{}"⟩

/-- A run where the completion succeeds but the message content is null. -/
def wNullContent : World :=
  ⟨ProcOutcome.ok "" "", ProcOutcome.ok "+line" "",
   OpenAIOutcome.success none, HttpResult.response 201 "{}"⟩

/-- A run where the comments endpoint returns 404. -/
def wHttp404 : World :=
  ⟨ProcOutcome.ok "" "", ProcOutcome.ok "+line" "",
   OpenAIOutcome.success (some "r"), HttpResult.response 404 "Not Found"⟩

end Review

namespace Review

/-- Appending strings concatenates their character data. -/
theorem string_data_append (a b : String) : (a ++ b).data = a.data ++ b.data := by
  cases a; cases b; rfl

/-- The inline error string of the review stage is never the empty-diff
placeholder, whatever the exception message (their lengths differ). -/
theorem error_ne_placeholder (m : String) :
    "Error: Unable to get AI review. " ++ m ≠ "No code changes detected." := by
  intro h
  have hlen := congrArg (fun s => s.data.length) h
  simp [string_data_append, List.length_append] at hlen

/-- The publish stage, given a string (non-`None`) review text, never lets an
exception escape: every outcome of the POST is caught. -/
theorem post_some_no_exn (repo pr : Option String) (rt : String) (w : World) :
    (post_github_comment repo pr (some rt) w).2 = none := by
  rcases w with ⟨f, d, oa, ht⟩
  cases ht with
  | response st tx =>
      by_cases hst : 400 ≤ st ∧ st < 600 <;> simp [post_github_comment, hst]
  | transportErr m => simp [post_github_comment]

/-- The publish stage, given a string review text, records an HTTP POST to the
comments endpoint whose `body` field is the header followed by the text. -/
theorem post_httpPost_mem (repo pr : Option String) (rt : String) (w : World) :
    Event.httpPost (api_url repo pr) (comment_header ++ rt) ∈
      (post_github_comment repo pr (some rt) w).1 := by
  rcases w with ⟨f, d, oa, ht⟩
  cases ht with
  | response st tx =>
      by_cases hst : 400 ≤ st ∧ st < 600 <;> simp [post_github_comment, hst]
  | transportErr m => simp [post_github_comment]

/-- The trace of the diff stage holds no review-stage invocation event. -/
theorem diffstage_no_callReview (base : Option String) (w : World) (d : Option String) :
    Event.callReview d ∉ (get_pr_diff base w).2 := by
  rcases w with ⟨f, dd, oa, ht⟩
  cases f <;> cases dd <;> simp [get_pr_diff] <;> split <;> simp

/-- The trace of the diff stage holds no publish-stage invocation event. -/
theorem diffstage_no_callPublish (base : Option String) (w : World) (r : Option String) :
    Event.callPublish r ∉ (get_pr_diff base w).2 := by
  rcases w with ⟨f, dd, oa, ht⟩
  cases f <;> cases dd <;> simp [get_pr_diff] <;> split <;> simp

/-- The trace of the review stage holds no review-stage invocation event. -/
theorem reviewstage_no_callReview (diff : Option String) (w : World) (d : Option String) :
    Event.callReview d ∉ (get_ai_review diff w).2 := by
  rcases w with ⟨f, dd, oa, ht⟩
  by_cases hd : truthy diff = true <;> cases oa <;> simp [get_ai_review, hd]

/-- The trace of the review stage holds no publish-stage invocation event. -/
theorem reviewstage_no_callPublish (diff : Option String) (w : World) (r : Option String) :
    Event.callPublish r ∉ (get_ai_review diff w).2 := by
  rcases w with ⟨f, dd, oa, ht⟩
  by_cases hd : truthy diff = true <;> cases oa <;> simp [get_ai_review, hd]

/-- The trace of the publish stage holds no review-stage invocation event. -/
theorem poststage_no_callReview (repo pr rt : Option String) (w : World) (d : Option String) :
    Event.callReview d ∉ (post_github_comment repo pr rt w).1 := by
  rcases w with ⟨f, dd, oa, ht⟩
  cases rt with
  | none => simp [post_github_comment]
  | some s =>
    cases ht with
    | response st tx =>
        by_cases hst : 400 ≤ st ∧ st < 600 <;> simp [post_github_comment, hst]
    | transportErr m => simp [post_github_comment]

/-- The trace of the publish stage holds no publish-stage invocation event. -/
theorem poststage_no_callPublish (repo pr rt : Option String) (w : World) (r : Option String) :
    Event.callPublish r ∉ (post_github_comment repo pr rt w).1 := by
  rcases w with ⟨f, dd, oa, ht⟩
  cases rt with
  | none => simp [post_github_comment]
  | some s =>
    cases ht with
    | response st tx =>
        by_cases hst : 400 ≤ st ∧ st < 600 <;> simp [post_github_comment, hst]
    | transportErr m => simp [post_github_comment]

/-- With a truthy diff and a completion outcome other than a null content,
the review stage returns a string (`some` value). -/
theorem get_ai_review_some (diff : Option String) (w : World)
    (h : w.openai ≠ OpenAIOutcome.success none) :
    ∃ s, (get_ai_review diff w).1 = some s := by
  by_cases hd : truthy diff = true
  · cases hoa : w.openai with
    | success c =>
      cases c with
      | none => exact absurd hoa h
      | some s => exact ⟨s, by simp [get_ai_review, hd, hoa]⟩
    | exn m =>
      exact ⟨"Error: Unable to get AI review. " ++ m, by simp [get_ai_review, hd, hoa]⟩
  · exact ⟨"No code changes detected.", by simp [get_ai_review, hd]⟩

/-- A review-stage invocation event in the trace of a run forces: the variable
guard passed, the diff was truthy, and the invocation argument is exactly
the return value of the diff stage. -/
theorem main_callReview_mem (env : Env) (w : World) (d : Option String)
    (h : Event.callReview d ∈ (main_run env w).1) :
    allSet env = true ∧ truthy (get_pr_diff env.BASE_REF w).1 = true ∧
      d = (get_pr_diff env.BASE_REF w).1 := by
  by_cases hall : allSet env = true
  · by_cases hdiff : truthy (get_pr_diff env.BASE_REF w).1 = true
    · refine ⟨hall, hdiff, ?_⟩
      rw [main_run] at h
      cases hpc : (post_github_comment env.GITHUB_REPOSITORY env.PR_NUMBER
          (get_ai_review (get_pr_diff env.BASE_REF w).1 w).1 w).2 with
      | none =>
          simp [hall, hdiff, hpc, diffstage_no_callReview,
            reviewstage_no_callReview, poststage_no_callReview] at h
          exact h
      | some e =>
          simp [hall, hdiff, hpc, diffstage_no_callReview,
            reviewstage_no_callReview, poststage_no_callReview] at h
          exact h
    · rw [main_run] at h
      simp [hall, hdiff, diffstage_no_callReview] at h
  · rw [main_run] at h
    simp [hall] at h

/-- A publish-stage invocation event in the trace of a run forces: the variable
guard passed, the diff was truthy, and the invocation argument is exactly
the return value of the review stage. -/
theorem main_callPublish_mem (env : Env) (w : World) (r : Option String)
    (h : Event.callPublish r ∈ (main_run env w).1) :
    allSet env = true ∧ truthy (get_pr_diff env.BASE_REF w).1 = true ∧
      r = (get_ai_review (get_pr_diff env.BASE_REF w).1 w).1 := by
  by_cases hall : allSet env = true
  · by_cases hdiff : truthy (get_pr_diff env.BASE_REF w).1 = true
    · refine ⟨hall, hdiff, ?_⟩
      rw [main_run] at h
      cases hpc : (post_github_comment env.GITHUB_REPOSITORY env.PR_NUMBER
          (get_ai_review (get_pr_diff env.BASE_REF w).1 w).1 w).2 with
      | none =>
          simp [hall, hdiff, hpc, diffstage_no_callPublish,
            reviewstage_no_callPublish, poststage_no_callPublish] at h
          exact h
      | some e =>
          simp [hall, hdiff, hpc, diffstage_no_callPublish,
            reviewstage_no_callPublish, poststage_no_callPublish] at h
          exact h
    · rw [main_run] at h
      simp [hall, hdiff, diffstage_no_callPublish] at h
  · rw [main_run] at h
    simp [hall] at h

/-- C2 counterexample: with OPENAI_API_KEY absent, the program raises an
uncaught OpenAIError at the module-scope client construction, before the
variable guard — the configuration-error line is never logged and an
exception escapes, so the claim that every missing subset is logged with no
further action is false. -/
theorem c2_counterexample_missing_key_crashes :
    Event.log "Error: Missing one or more required environment variables." ∉
        (program_run envNone wOk).1 ∧
      (program_run envNone wOk).2 ≠ none := by decide

/-- C2 (amended): for every non-empty absent subset of the five required
variables: when OPENAI_API_KEY is among the absent ones, the program raises
an uncaught OpenAIError at the module-scope client construction, printing
nothing and performing no subprocess or network call; when OPENAI_API_KEY is
present, the program logs the configuration error as its only event — so no
subprocess call and no network call — and stops without raising. -/
theorem c2_missing_env_behavior (env : Env) (w : World)
    (h : env.OPENAI_API_KEY = none ∨ env.GITHUB_TOKEN = none ∨
         env.GITHUB_REPOSITORY = none ∨ env.PR_NUMBER = none ∨ env.BASE_REF = none) :
    (env.OPENAI_API_KEY = none → program_run env w = ([], some openAIErrorMsg)) ∧
    (∀ k, env.OPENAI_API_KEY = some k →
        program_run env w =
          ([Event.log "Error: Missing one or more required environment variables."],
           none)) := by
  constructor
  · intro hk
    simp [program_run, client_init, hk]
  · intro k hk
    have hall : allSet env = false := by
      rcases h with h | h | h | h | h
      · rw [h] at hk
        exact Option.noConfusion hk
      · simp [allSet, h, truthy]
      · simp [allSet, h, truthy]
      · simp [allSet, h, truthy]
      · simp [allSet, h, truthy]
    simp [program_run, client_init, hk, main_run, hall]

/-- Witness for the amended C2, covering both branches: every variable
absent (crash with nothing printed), and only the token absent (the logged
configuration error). -/
theorem c2_missing_env_behavior_witness :
    (envNone.OPENAI_API_KEY = none ∧
        program_run envNone wOk = ([], some openAIErrorMsg)) ∧
      (envNoToken.GITHUB_TOKEN = none ∧
        program_run envNoToken wOk =
          ([Event.log "Error: Missing one or more required environment variables."],
           none)) :=
  ⟨⟨rfl, (c2_missing_env_behavior envNone wOk (Or.inl rfl)).1 rfl⟩,
    ⟨rfl, (c2_missing_env_behavior envNoToken wOk (Or.inr (Or.inl rfl))).2 "sk-key" rfl⟩⟩

/-- C3: on a falsy (absent or empty) diff the review stage returns exactly
the placeholder string and performs no event at all — in particular no
completion-service call. -/
theorem c3_empty_diff_placeholder (diff : Option String) (w : World)
    (h : truthy diff = false) :
    get_ai_review diff w = (some "No code changes detected.", []) := by
  simp [get_ai_review, h]

/-- Witness for C3 at the absent-diff signal. -/
theorem c3_empty_diff_placeholder_witness :
    truthy none = false ∧
      get_ai_review none wOk = (some "No code changes detected.", []) :=
  ⟨by decide, c3_empty_diff_placeholder none wOk (by decide)⟩

/-- C5: for every review text, the POST of the publisher carries a JSON `body`
field equal to the fixed markdown header followed by the review text
verbatim, and every POST it makes carries exactly that body. -/
theorem c5_post_body_is_header_plus_review (repo pr : Option String) (rt : String)
    (w : World) :
    Event.httpPost (api_url repo pr) (comment_header ++ rt) ∈
        (post_github_comment repo pr (some rt) w).1 ∧
      ∀ u b, Event.httpPost u b ∈ (post_github_comment repo pr (some rt) w).1 →
        b = comment_header ++ rt := by
  refine ⟨post_httpPost_mem repo pr rt w, ?_⟩
  intro u b hb
  rcases w with ⟨f, d, oa, ht⟩
  cases ht with
  | response st tx =>
      by_cases hst : 400 ≤ st ∧ st < 600 <;>
        simp [post_github_comment, hst] at hb <;> exact hb.2
  | transportErr m =>
      simp [post_github_comment] at hb
      exact hb.2

/-- Witness for C5 at a concrete repository, PR number and review text. -/
theorem c5_post_body_is_header_plus_review_witness :
    Event.httpPost (api_url (some "octo/repo") (some "7")) (comment_header ++ "hi") ∈
      (post_github_comment (some "octo/repo") (some "7") (some "hi") wOk).1 :=
  (c5_post_body_is_header_plus_review (some "octo/repo") (some "7") "hi" wOk).1

/-- C6: on any HTTP error status (400–599, e.g. 404 or 422) from the comments
endpoint, the publisher logs the status code and the response body and lets
no exception escape. -/
theorem c6_http_error_logged_not_raised (repo pr : Option String) (rt : String)
    (w : World) (status : Nat) (text : String)
    (hw : w.http = HttpResult.response status text)
    (h4 : 400 ≤ status) (h6 : status < 600) :
    (post_github_comment repo pr (some rt) w).2 = none ∧
      Event.log ("Error posting comment: " ++ toString status ++ " " ++ text) ∈
        (post_github_comment repo pr (some rt) w).1 := by
  simp [post_github_comment, hw, h4, h6]

/-- Witness for C6 at a concrete 404 response. -/
theorem c6_http_error_logged_not_raised_witness :
    (wHttp404.http = HttpResult.response 404 "Not Found" ∧ 400 ≤ 404 ∧ 404 < 600) ∧
      (post_github_comment (some "octo/repo") (some "7") (some "r") wHttp404).2 = none ∧
      Event.log ("Error posting comment: " ++ toString 404 ++ " " ++ "Not Found") ∈
        (post_github_comment (some "octo/repo") (some "7") (some "r") wHttp404).1 :=
  ⟨⟨rfl, by decide, by decide⟩,
    c6_http_error_logged_not_raised (some "octo/repo") (some "7") "r" wHttp404 404
      "Not Found" rfl (by decide) (by decide)⟩

/-- C7: when the fetch subprocess, or the diff subprocess after a successful
fetch, exits non-zero, the diff stage catches the error, logs the captured
stderr, and returns `None` instead of raising. -/
theorem c7_subprocess_failure_caught (base : Option String) (w : World) (stderr : String)
    (h : w.fetch = ProcOutcome.calledProcessError stderr ∨
         (∃ fo fe, w.fetch = ProcOutcome.ok fo fe) ∧
           w.diff = ProcOutcome.calledProcessError stderr) :
    (get_pr_diff base w).1 = none ∧
      Event.log ("Error getting git diff: " ++ stderr) ∈ (get_pr_diff base w).2 := by
  rcases h with h | ⟨⟨fo, fe, hf⟩, hd⟩
  · simp [get_pr_diff, h]
  · simp [get_pr_diff, hf, hd]

/-- Witness for C7 at a concrete failing fetch. -/
theorem c7_subprocess_failure_caught_witness :
    wFetchFail.fetch = ProcOutcome.calledProcessError "fatal: could not fetch" ∧
      (get_pr_diff (some "main") wFetchFail).1 = none ∧
      Event.log ("Error getting git diff: " ++ "fatal: could not fetch") ∈
        (get_pr_diff (some "main") wFetchFail).2 :=
  ⟨rfl, c7_subprocess_failure_caught (some "main") wFetchFail "fatal: could not fetch"
    (Or.inl rfl)⟩

/-- C10: the exception handling of the publisher starts only at the HTTP request;
the body concatenation precedes the `try` block, so a `None` review text —
exactly what the review stage returns when the completion message content
is null — makes `post_github_comment` raise a `TypeError` to its caller,
before logging anything or attempting the POST. -/
theorem c10_none_review_raises (repo pr : Option String) (w w2 : World) (d : String)
    (hd : d.isEmpty = false)
    (ho : w2.openai = OpenAIOutcome.success none) :
    (get_ai_review (some d) w2).1 = none ∧
      post_github_comment repo pr none w = ([], some typeErrorMsg) := by
  constructor
  · simp [get_ai_review, truthy, hd, ho]
  · rfl

/-- Witness for C10 at a concrete null-content completion and `None` review
text. -/
theorem c10_none_review_raises_witness :
    ("x".isEmpty = false ∧ wNullContent.openai = OpenAIOutcome.success none) ∧
      (get_ai_review (some "x") wNullContent).1 = none ∧
      post_github_comment (some "octo/repo") (some "7") none wOk =
        ([], some typeErrorMsg) :=
  ⟨⟨by decide, rfl⟩,
    c10_none_review_raises (some "octo/repo") (some "7") wOk wNullContent "x"
      (by decide) rfl⟩

/-- The guarded block of lines 111-127 on its own lets no exception escape
unless the completion outcome is a success carrying a null message content. -/
theorem main_no_escape_unless_null_content (env : Env) (w : World)
    (h : w.openai ≠ OpenAIOutcome.success none) :
    (main_run env w).2 = none := by
  by_cases hall : allSet env = true
  · by_cases hdiff : truthy (get_pr_diff env.BASE_REF w).1 = true
    · obtain ⟨s, hs⟩ := get_ai_review_some (get_pr_diff env.BASE_REF w).1 w h
      simp [main_run, hall, hdiff, hs, post_some_no_exn]
    · simp [main_run, hall, hdiff]
  · simp [main_run, hall]

/-- C1 counterexample: with all five variables set, both subprocesses
succeeding on a non-empty diff, and the completion service succeeding with a
null message content, an exception (a `TypeError` in the publisher) escapes the
top level — the claim that no run lets an exception escape is false. -/
theorem c1_counterexample_null_content_escapes :
    (program_run envAll wNullContent).2 ≠ none := by decide

/-- C1 (amended): in every run where OPENAI_API_KEY is present (so the
module-scope client construction does not raise) and the completion-service
outcome is not a success carrying a null message content, no exception
escapes the top level; failures surface only as logged lines. -/
theorem c1_no_escape_unless_null_content (env : Env) (w : World)
    (hk : env.OPENAI_API_KEY ≠ none)
    (h : w.openai ≠ OpenAIOutcome.success none) :
    (program_run env w).2 = none := by
  cases hkey : env.OPENAI_API_KEY with
  | none => exact absurd hkey hk
  | some k =>
    have hmain := main_no_escape_unless_null_content env w h
    simp [program_run, client_init, hkey, hmain]

/-- Witness for the amended C1 at a concrete fully-successful run. -/
theorem c1_no_escape_unless_null_content_witness :
    (envAll.OPENAI_API_KEY ≠ none ∧ wOk.openai ≠ OpenAIOutcome.success none) ∧
      (program_run envAll wOk).2 = none :=
  ⟨⟨by decide, by decide⟩,
    c1_no_escape_unless_null_content envAll wOk (by decide) (by decide)⟩

/-- C4: when the completion call raises, the review stage returns a string
that starts with "Error:" (it does not raise), and the run still records an
HTTP POST publishing exactly that string under the comment header. -/
theorem c4_openai_error_string_published (env : Env) (w : World)
    (fo fe d de msg : String)
    (hall : allSet env = true)
    (hf : w.fetch = ProcOutcome.ok fo fe)
    (hd : w.diff = ProcOutcome.ok d de)
    (hne : d.isEmpty = false)
    (ho : w.openai = OpenAIOutcome.exn msg) :
    (∃ t, (get_ai_review (some d) w).1 = some ("Error:" ++ t)) ∧
      Event.httpPost (api_url env.GITHUB_REPOSITORY env.PR_NUMBER)
        (comment_header ++ ("Error: Unable to get AI review. " ++ msg)) ∈
        (main_run env w).1 := by
  have htr : truthy (some d) = true := by simp [truthy, hne]
  have hpd1 : (get_pr_diff env.BASE_REF w).1 = some d := by
    simp [get_pr_diff, hf, hd, hne]
  have har : (get_ai_review (get_pr_diff env.BASE_REF w).1 w).1 =
      some ("Error: Unable to get AI review. " ++ msg) := by
    simp [hpd1, get_ai_review, htr, ho]
  constructor
  · refine ⟨" Unable to get AI review. " ++ msg, ?_⟩
    have hlit : ("Error:" : String) ++ " Unable to get AI review. " =
        "Error: Unable to get AI review. " := by decide
    rw [← String.append_assoc, hlit]
    simp [get_ai_review, htr, ho]
  · have hm := post_httpPost_mem env.GITHUB_REPOSITORY env.PR_NUMBER
      ("Error: Unable to get AI review. " ++ msg) w
    have htr2 : truthy (get_pr_diff env.BASE_REF w).1 = true := by
      rw [hpd1]; exact htr
    simp [main_run, hall, htr2, har, post_some_no_exn]
    tauto

/-- Witness for C4 at a concrete run whose completion call raises. -/
theorem c4_openai_error_string_published_witness :
    allSet envAll = true ∧
      (∃ t, (get_ai_review (some "+line") wOpenAIFail).1 = some ("Error:" ++ t)) ∧
      Event.httpPost (api_url envAll.GITHUB_REPOSITORY envAll.PR_NUMBER)
        (comment_header ++ ("Error: Unable to get AI review. " ++ "connection reset")) ∈
        (main_run envAll wOpenAIFail).1 :=
  ⟨by decide,
    c4_openai_error_string_published envAll wOpenAIFail "" "" "+line" ""
      "connection reset" (by decide) rfl rfl (by decide) rfl⟩

/-- C8 counterexample: in a run whose fetch subprocess exits non-zero, the
diff stage makes only one subprocess invocation, not two — the claim that
every run of the diff stage makes exactly two is false. -/
theorem c8_counterexample_single_call :
    (subprocCalls (get_pr_diff (some "main") wFetchFail).2).length ≠ 2 := by decide

/-- C8 (amended): every run of the diff stage first invokes
`git fetch origin <base-branch>`; when that invocation completes normally it
then invokes `git diff origin/<base-branch>...HEAD`, giving exactly those two
subprocess invocations in that order; when the fetch raises, only the fetch
invocation is made. -/
theorem c8_subprocess_sequence (base : Option String) (w : World) :
    subprocCalls (get_pr_diff base w).2 =
      (match w.fetch with
       | ProcOutcome.ok _ _ => [fetch_command base, diff_command base]
       | _ => [fetch_command base]) := by
  rcases w with ⟨f, dd, oa, ht⟩
  cases f <;> cases dd <;> simp [get_pr_diff, subprocCalls] <;>
    split <;> simp [subprocCalls]

/-- C9: when the diff stage returns `None` the top level invokes neither the
review stage nor the publisher; every review-stage invocation carries a
truthy (non-empty) diff; and the placeholder "No code changes detected." is
never passed to the publisher unless the completion service itself returned
that exact text. -/
theorem c9_none_diff_skips_stages (env : Env) (w : World) :
    ((get_pr_diff env.BASE_REF w).1 = none →
        (∀ d, Event.callReview d ∉ (main_run env w).1) ∧
        (∀ r, Event.callPublish r ∉ (main_run env w).1)) ∧
    (∀ d, Event.callReview d ∈ (main_run env w).1 → truthy d = true) ∧
    (w.openai ≠ OpenAIOutcome.success (some "No code changes detected.") →
        Event.callPublish (some "No code changes detected.") ∉ (main_run env w).1) := by
  refine ⟨?_, ?_, ?_⟩
  · intro hnone
    constructor
    · intro d hmem
      obtain ⟨-, htr, -⟩ := main_callReview_mem env w d hmem
      rw [hnone] at htr
      simp [truthy] at htr
    · intro r hmem
      obtain ⟨-, htr, -⟩ := main_callPublish_mem env w r hmem
      rw [hnone] at htr
      simp [truthy] at htr
  · intro d hmem
    obtain ⟨-, htr, hd⟩ := main_callReview_mem env w d hmem
    rw [hd]
    exact htr
  · intro hoa hmem
    obtain ⟨-, htr, hr⟩ := main_callPublish_mem env w
      (some "No code changes detected.") hmem
    rw [get_ai_review] at hr
    simp only [htr, Bool.not_true] at hr
    cases hcase : w.openai with
    | success c =>
        rw [hcase] at hr
        simp at hr
        exact hoa (by rw [hcase, hr])
    | exn m =>
        rw [hcase] at hr
        simp at hr
        exact error_ne_placeholder m hr.symm

/-- Witness for C9 at a concrete run whose diff stage returns `None`. -/
theorem c9_none_diff_skips_stages_witness :
    (get_pr_diff envAll.BASE_REF wFetchFail).1 = none ∧
      Event.callReview none ∉ (main_run envAll wFetchFail).1 :=
  ⟨by decide,
    ((c9_none_diff_skips_stages envAll wFetchFail).1 (by decide)).1 none⟩

end Review
